import Mathlib

/-!
Verification development for the Agro_Vista dashboard backend.

The embedding follows `src/app.py` and the helpers under `src/utils/`:
the sheet loader with its table-name variant resolution
(`load_all_sheets` / `safe_select`), the redis-backed cache helpers
(`cache_get` / `cache_set`), the per-minute rate limiter
(`check_rate_limit`), and the `/ask` request handler.

Python strings are modelled as Lean `String`s, dataframes as lists of
rows where a row is an association list of column-name/cell pairs, and
every external effect (SQL reads, redis, the GenAI call, chart
rendering) as an explicit oracle argument.
-/

namespace AgroVista

/-! ### Python string primitives

`str.lower`, `str.endswith`, `str.replace` (replace every occurrence,
left to right, non-overlapping) as used by the loader. `pyReplace` is
driven by a fuel argument bounded by the input length so that it is
structurally recursive and evaluates inside `decide`. -/

def strLower (s : String) : String :=
  ⟨s.data.map Char.toLower⟩

def pyEndsWith (s suf : String) : Bool :=
  suf.data.isSuffixOf s.data

def pyReplaceAux (pat rep : List Char) : Nat → List Char → List Char
  | _, [] => []
  | 0, l => l
  | fuel + 1, c :: rest =>
    if pat ≠ [] ∧ pat.isPrefixOf (c :: rest) then
      rep ++ pyReplaceAux pat rep fuel ((c :: rest).drop pat.length)
    else
      c :: pyReplaceAux pat rep fuel rest

def pyReplace (s pat rep : String) : String :=
  ⟨pyReplaceAux pat.data rep.data s.data.length s.data⟩

/-- `dict.fromkeys` deduplication: keep the first occurrence of each
element, preserving order. -/
def dedupAux (seen : List String) : List String → List String
  | [] => []
  | x :: rest =>
    if x ∈ seen then dedupAux seen rest
    else x :: dedupAux (x :: seen) rest

def dedupFirst (l : List String) : List String :=
  dedupAux [] l

/-! ### Configured logical dataset names (`sheet_names` in the source) -/

def sheetNames : List String :=
  [ "youth_women_empowerment_forecast"
  , "Tractor_Registry_forecast"
  , "National_Agro_Farmer_Mapping_Forecast"
  , "Stakeholders_Partners_Forecast"
  , "Knowledge_Innocvation_Tracker_Forecast"
  , "Project_Overview_Forecast"
  , "E_Voucher_Forecast"
  , "Farmers_Registry_Forecast"
  , "Investment_KPIs_Forecast"
  , "Policy_Simulator_Forecast"
  , "Rainified_Crops_Forecast"
  , "Climate_Carbon_Credits_Forecast"
  , "Yield_Food_Security_Forecast"
  , "Input_Pest_Disease_Alert_Forecast" ]

/-! ### Candidate-name generation (`cand_list` in `load_all_sheets`)

The source builds, in order: the name as given, the lowercased name,
the lowercased name with `"_forecast"` removed (only when the
lowercased name ends with it), the original name with `"_forecast"`
removed (only when the original ends with it, case-sensitively), and
the name with spaces replaced by underscores then lowercased; it then
drops falsy (empty) strings and deduplicates preserving order. -/

def candList (s : String) : List String :=
  dedupFirst ((([ some s
                , some (strLower s)
                , if pyEndsWith (strLower s) "_forecast" then
                    some (pyReplace (strLower s) "_forecast" "")
                  else none
                , if pyEndsWith s "_forecast" then
                    some (pyReplace s "_forecast" "")
                  else none
                , some (strLower (pyReplace s " " "_"))
                ] : List (Option String)).filterMap id).filter (fun c => c ≠ ""))

/-- Drop the literal suffix `"_forecast"` from `t` when present
(case-sensitively); otherwise return `t` unchanged. This is the
spec's wording of the suffix-stripping step. -/
def stripForecast (t : String) : String :=
  if pyEndsWith t "_forecast" then ⟨t.data.take (t.data.length - 9)⟩ else t

/-- The variant order exactly as the specification words it: the name
as given, then lowercased, then with the `"_forecast"` suffix stripped
for both forms (lowercased-stripped before original-stripped, which is
the order the code attempts; the spec sentence groups the two stripped
forms without fixing their relative order), duplicates removed while
preserving attempt order. -/
def specVariants (s : String) : List String :=
  dedupFirst [s, strLower s, stripForecast (strLower s), stripForecast s]

example : candList "Tractor_Registry_forecast" =
    ["Tractor_Registry_forecast", "tractor_registry_forecast",
     "tractor_registry", "Tractor_Registry"] := by decide

example : candList "Yield_Food_Security_Forecast" =
    ["Yield_Food_Security_Forecast", "yield_food_security_forecast",
     "yield_food_security"] := by decide

example : specVariants "Tractor_Registry_forecast" =
    ["Tractor_Registry_forecast", "tractor_registry_forecast",
     "tractor_registry", "Tractor_Registry"] := by decide

/-! ### Dataframe model

A row is an association list from column name to cell text; a
dataframe is its list of rows. `pd.concat` with schema union is list
concatenation (a column absent from a row is an absent key, pandas'
null fill). Cell payloads are modelled as strings; nothing the claims
touch depends on cell types. -/

abbrev Row : Type := List (String × String)

abbrev DataFrame : Type := List Row

/-- Column lookup on a row. -/
def getCell (k : String) (r : Row) : Option String :=
  (List.find? (fun p => p.1 = k) r).map (fun p => p.2)

/-- Column assignment `df[k] = v` restricted to one row: overwrite any
existing binding for `k`. -/
def setCell (k v : String) (r : Row) : Row :=
  (k, v) :: r.filter (fun p => ¬ p.1 = k)

/-- The `Source_Sheet` tag of a row. -/
def tagOf (r : Row) : Option String :=
  getCell "Source_Sheet" r

/-- `df["Source_Sheet"] = s`: tag every row of the frame with the
logical sheet name `s`. -/
def setTag (s : String) (df : DataFrame) : DataFrame :=
  df.map (setCell "Source_Sheet" s)

/-! ### The resolver (`safe_select` and the candidate loop)

SQL reads are an oracle `query : String → Option DataFrame` over the
exact SQL text the source builds; `none` is a raised exception (or an
absent table), `some df` a successful read. -/

/-- First success in a list of attempts: try each element in order,
return the first `some`, skipping elements on which `f` fails. -/
def firstSome (f : α → Option β) : List α → Option β
  | [] => none
  | c :: cs =>
    match f c with
    | some b => some b
    | none => firstSome f cs

/-- The three SELECT forms `safe_select` builds for one candidate
table name: quoted original, quoted lowercase, unquoted lowercase. -/
def sqlVariants (candidate : String) : List String :=
  [ "SELECT * FROM \"" ++ candidate ++ "\" LIMIT 10000"
  , "SELECT * FROM \"" ++ strLower candidate ++ "\" LIMIT 10000"
  , "SELECT * FROM " ++ strLower candidate ++ " LIMIT 10000" ]

/-- `safe_select(conn, candidate)`: try the three SELECT forms in
order; first successful read wins, otherwise `None`. -/
def safeSelect (query : String → Option DataFrame) (candidate : String) :
    Option DataFrame :=
  firstSome query (sqlVariants candidate)

/-- The per-name candidate loop of `load_all_sheets`: try each
candidate with `safe_select`, stop at the first one that returns a
dataframe. -/
def resolveName (query : String → Option DataFrame) (s : String) :
    Option DataFrame :=
  firstSome (safeSelect query) (candList s)

/-- The list `dfs` accumulated by `load_all_sheets`, paired with the
logical name each entry was tagged with: one entry per logical name
that resolved, holding the fetched frame tagged via
`df["Source_Sheet"] = s`. -/
def resolvedList (query : String → Option DataFrame) (names : List String) :
    List (String × DataFrame) :=
  names.filterMap (fun s => (resolveName query s).map (fun df => (s, setTag s df)))

/-- `pd.concat(dfs)` over the resolved, tagged frames: the fresh
(non-cached) aggregate `load_all_sheets` builds. -/
def buildAll (query : String → Option DataFrame) (names : List String) :
    DataFrame :=
  (resolvedList query names).flatMap (fun p => p.2)

/-! ### Serialization of the aggregate

Modelled from the spec: the loader serializes the aggregate with
`df_all.to_json(orient="split")` and deserializes cache hits with
`pd.read_json(cached, orient="split")`; pandas itself is outside the
repository, so its serializer is modelled here as an executable
JSON-style encoder/decoder over the row model — quoted strings with
backslash escapes, bracketed comma-led lists — for which the spec's
round-trip invariant is provable. Decoding is total and returns `none`
on malformed input (pandas' raised `ValueError`). -/

def escChar (c : Char) : List Char :=
  if c = '"' ∨ c = '\\' then ['\\', c] else [c]

def encStrBody (s : List Char) : List Char :=
  s.flatMap escChar

def encStr (s : String) : List Char :=
  '"' :: encStrBody s.data ++ ['"']

def decStrBody : List Char → Option (List Char × List Char)
  | [] => none
  | c :: rest =>
    if c = '"' then some ([], rest)
    else if c = '\\' then
      match rest with
      | [] => none
      | d :: rest2 =>
        match decStrBody rest2 with
        | some (acc, rem) => some (d :: acc, rem)
        | none => none
    else
      match decStrBody rest with
      | some (acc, rem) => some (c :: acc, rem)
      | none => none

def decStr : List Char → Option (String × List Char)
  | [] => none
  | c :: rest =>
    if c = '"' then
      match decStrBody rest with
      | some (cs, rem) => some (⟨cs⟩, rem)
      | none => none
    else none

def encCell (p : String × String) : List Char :=
  encStr p.1 ++ encStr p.2

def decCell (input : List Char) : Option ((String × String) × List Char) :=
  match decStr input with
  | some (k, r) =>
    match decStr r with
    | some (v, r2) => some ((k, v), r2)
    | none => none
  | none => none

def encListWith (f : α → List Char) (xs : List α) : List Char :=
  '[' :: xs.flatMap (fun x => ',' :: f x) ++ [']']

def decListAux (dec : List Char → Option (α × List Char)) :
    Nat → List Char → Option (List α × List Char)
  | _, [] => none
  | fuel, c :: rest =>
    if c = ']' then some ([], rest)
    else if c = ',' then
      match fuel with
      | 0 => none
      | fuel2 + 1 =>
        match dec rest with
        | some (x, r) =>
          match decListAux dec fuel2 r with
          | some (xs, r2) => some (x :: xs, r2)
          | none => none
        | none => none
    else none

def decListWith (dec : List Char → Option (α × List Char))
    (input : List Char) : Option (List α × List Char) :=
  match input with
  | [] => none
  | c :: rest => if c = '[' then decListAux dec rest.length rest else none

def encRow (r : Row) : List Char :=
  encListWith encCell r

def decRow (input : List Char) : Option (Row × List Char) :=
  decListWith decCell input

/-- `df_all.to_json(orient="split")` (modelled; see the section
comment). -/
def dfToJson (df : DataFrame) : String :=
  ⟨encListWith encRow df⟩

/-- `pd.read_json(cached, orient="split")` (modelled); `none` is a
deserialization failure. -/
def dfFromJson (s : String) : Option DataFrame :=
  match decListWith decRow s.data with
  | some (df, []) => some df
  | _ => none

/-! ### Cache layer (`utils/cache.py`)

The redis backend holds string values with an absolute expiry time
(`set(key, value, ex=expire)` stores until `now + expire`; a `get` at
or after the expiry sees nothing). `configured` is `redis_client`
being non-`None`; `gFails` / `sFails` model the backend raising on
that one call, which `cache_get` / `cache_set` swallow. -/

abbrev CacheStore : Type := List (String × String × Nat)

def storeLookup (k : String) : CacheStore → Option (String × Nat)
  | [] => none
  | (k2, v, e) :: rest => if k2 = k then some (v, e) else storeLookup k rest

def storeInsert (k : String) (v : String) (e : Nat) : CacheStore → CacheStore
  | [] => [(k, v, e)]
  | (k2, v2, e2) :: rest =>
    if k2 = k then (k, v, e) :: rest else (k2, v2, e2) :: storeInsert k v e rest

/-- The raw backend read: the stored, unexpired value for `key`, if
any. -/
def redisGet (store : CacheStore) (now : Nat) (key : String) : Option String :=
  match storeLookup key store with
  | some (v, e) => if now < e then some v else none
  | none => none

/-- `cache_get(key)`: `None` when no client is configured or the
backend call raises; otherwise the backend's answer. -/
def cache_get (configured : Bool) (store : CacheStore) (gFails : Bool)
    (now : Nat) (key : String) : Option String :=
  if configured then
    if gFails then none else redisGet store now key
  else none

/-- `cache_set(key, value, expire)`: a no-op when no client is
configured or the backend call raises; otherwise store `value` under
`key` with expiry `now + expire`. -/
def cache_set (configured : Bool) (store : CacheStore) (sFails : Bool)
    (now : Nat) (key : String) (value : String) (expire : Nat) : CacheStore :=
  if configured then
    if sFails then store else storeInsert key value (now + expire) store
  else store

def cacheKey : String := "agrovista:all_sheets_v2"

/-! ### `load_all_sheets`

The loader first consults the cache; a truthy cached string that
deserializes is returned as-is; a falsy entry, a backend miss, or a
deserialization failure falls through to the fresh build, which is
then written back with a 300-second expiry. `engineP` models the
module-level `engine` handle being non-`None`. The result is the
returned frame together with the cache store after any write-back. -/

def load_all_sheets (configured : Bool) (store : CacheStore)
    (gFails sFails : Bool) (now : Nat) (engineP : Bool)
    (query : String → Option DataFrame) : DataFrame × CacheStore :=
  let freshly :=
    if engineP then
      let dfAll := buildAll query sheetNames
      (dfAll, cache_set configured store sFails now cacheKey (dfToJson dfAll) 300)
    else (([] : DataFrame), store)
  match cache_get configured store gFails now cacheKey with
  | some cached =>
    if cached ≠ "" then
      match dfFromJson cached with
      | some df => (df, store)
      | none => freshly
    else freshly
  | none => freshly

/-! ### Rate limiter (`utils/rate_limit.py`)

`rate_store` is a Python dict from `f"{ip}:{window}"` to a counter;
dict insertion preserves order, and the guard clears the whole dict
when it grows past 10000 entries (after the insertion). -/

abbrev RateState : Type := List (String × Nat)

def rateLookup (k : String) : RateState → Option Nat
  | [] => none
  | (k2, v) :: rest => if k2 = k then some v else rateLookup k rest

def rateInsert (k : String) (v : Nat) : RateState → RateState
  | [] => [(k, v)]
  | (k2, v2) :: rest =>
    if k2 = k then (k, v) :: rest else (k2, v2) :: rateInsert k v rest

def rateKey (ip : String) (now : Nat) : String :=
  ip ++ ":" ++ toString (now / 60)

/-- `check_rate_limit(ip)` at integer time `now` with limit
`RATE_LIMIT = limit`: admit and count the request unless the current
window's counter has reached the limit. -/
def check_rate_limit (limit : Nat) (st : RateState) (now : Nat) (ip : String) :
    Bool × RateState :=
  let key := rateKey ip now
  let count := (rateLookup key st).getD 0
  if limit ≤ count then (false, st)
  else
    let st2 := rateInsert key (count + 1) st
    if 10000 < st2.length then (true, []) else (true, st2)

/-! ### The `/ask` handler

Oracles: `load` is `load_all_sheets` (a thunk, so that independence
from it states that the store is never read), `tables` the
`information_schema` listing used in the no-data branch, `chart` the
rendered chart (`none` covers both "no numeric data path failed" and a
raised rendering error, which the handler swallows), `genai` the
GenAI call — `none` when `GENAI_API_KEY` is unset, `some (.error ())`
when `generate_content` raises, `some (.ok t)` a reply with text `t`.
HTTP statuses: Flask's default 200 for plain `jsonify` returns, 429
for the rate-limit early exit. -/

structure AskResponse where
  status : Nat
  answer : String
  chart : Option String
  dbTables : Option (List String)
deriving DecidableEq

/-- `value_counts()` on the `Source_Sheet` column: occurrence counts
of each tag, most frequent first (ties keep first-appearance order;
pandas does not fix tie order, and nothing here depends on it). -/
def insertByCount (p : String × Nat) : List (String × Nat) → List (String × Nat)
  | [] => [p]
  | q :: rest => if p.2 ≤ q.2 then q :: insertByCount p rest else p :: q :: rest

def sortByCount : List (String × Nat) → List (String × Nat)
  | [] => []
  | p :: rest => insertByCount p (sortByCount rest)

def countTag (df : DataFrame) (t : String) : Nat :=
  (df.filter (fun r => tagOf r = some t)).length

def sheetCounts (df : DataFrame) : List (String × Nat) :=
  sortByCount ((dedupFirst (df.filterMap tagOf)).map (fun t => (t, countTag df t)))

/-- Python's `repr` of the `value_counts().to_dict()` dict, as
interpolated by the fallback f-string. -/
def pyDictRepr (l : List (String × Nat)) : String :=
  "\x7b" ++ String.intercalate ", "
    (l.map (fun p => "\x27" ++ p.1 ++ "\x27: " ++ toString p.2)) ++ "\x7d"

/-- The deterministic local summary both fallback branches append:
total row count, number of distinct sheets, and the per-sheet counts
dict. -/
def localSummary (df : DataFrame) : String :=
  "Data rows: " ++ toString df.length ++ "; sheets: " ++
    toString (sheetCounts df).length ++ "; top_sheets: " ++
    pyDictRepr (sheetCounts df)

/-- `bool(engine)` under `%s` formatting. -/
def pyBoolStr (b : Bool) : String :=
  if b then "True" else "False"

def rateLimitedAnswer : String := "Rate limit exceeded. Try again in a minute."

def promptAnswer : String := "Please ask a question."

def noDataAnswer (engineP : Bool) : String :=
  "No forecast data available. (DB connected: " ++ pyBoolStr engineP ++ ")"

def noKeySummary (df : DataFrame) : String :=
  "GENAI_API_KEY not set. Local summary:\n" ++ localSummary df

def genaiFailSummary (df : DataFrame) : String :=
  "AI temporarily unavailable; here\x27s a short local summary:\n" ++
    localSummary df

/-- The `/ask` handler body, returning the JSON response and the
rate-limiter state after the request. -/
def ask (limit : Nat) (st : RateState) (now : Nat) (ip : String)
    (question : Option String) (load : Unit → DataFrame)
    (engineP : Bool) (tables : List String) (chart : Option String)
    (genai : Option (Except Unit String)) : AskResponse × RateState :=
  let rl := check_rate_limit limit st now ip
  if rl.1 = false then
    (⟨429, rateLimitedAnswer, none, none⟩, rl.2)
  else
    let q := (question.getD "")
    if q = "" then
      (⟨200, promptAnswer, none, none⟩, rl.2)
    else
      let df := load ()
      if df = [] then
        (⟨200, noDataAnswer engineP, none, some tables⟩, rl.2)
      else
        let answer :=
          match genai with
          | none => noKeySummary df
          | some (.error _) => genaiFailSummary df
          | some (.ok t) => if t = "" then "No response generated." else t
        (⟨200, answer, chart, none⟩, rl.2)

/-- The same client issuing one `/ask` request per timestamp in `ts`,
threading the rate-limiter state. -/
def askSeq (limit : Nat) (ip : String) (question : Option String)
    (load : Unit → DataFrame) (engineP : Bool) (tables : List String)
    (chart : Option String) (genai : Option (Except Unit String)) :
    List Nat → RateState → List AskResponse × RateState
  | [], st => ([], st)
  | t :: ts, st =>
    let r := ask limit st t ip question load engineP tables chart genai
    let rec2 := askSeq limit ip question load engineP tables chart genai ts r.2
    (r.1 :: rec2.1, rec2.2)

def w1df : DataFrame := [[("yield", "12")]]

def w1query (q : String) : Option DataFrame :=
  if q = "SELECT * FROM \"Tractor_Registry_forecast\" LIMIT 10000" then some w1df
  else none

def w10query (q : String) : Option DataFrame :=
  if q = "SELECT * FROM \"Project_Overview_Forecast\" LIMIT 10000" then
    some ([] : DataFrame)
  else none

def w3df : DataFrame := [[("Source_Sheet", "E_Voucher_Forecast"), ("kpi", "7")]]

/-! #### Round-trip lemmas for the serializer -/

theorem string_mk_data (s : String) : (⟨s.data⟩ : String) = s := by
  cases s
  rfl

theorem decStrBody_quote (rest : List Char) :
    decStrBody ('"' :: rest) = some ([], rest) := by
  rw [decStrBody.eq_def]
  simp

theorem decStrBody_esc (d : Char) (rest : List Char) :
    decStrBody ('\\' :: d :: rest) =
      match decStrBody rest with
      | some (acc, rem) => some (d :: acc, rem)
      | none => none := by
  rw [decStrBody.eq_def]
  simp

theorem decStrBody_other (c : Char) (rest : List Char)
    (h1 : c ≠ '"') (h2 : c ≠ '\\') :
    decStrBody (c :: rest) =
      match decStrBody rest with
      | some (acc, rem) => some (c :: acc, rem)
      | none => none := by
  rw [decStrBody.eq_def]
  simp [h1, h2]

theorem decStrBody_enc (s rest : List Char) :
    decStrBody (encStrBody s ++ '"' :: rest) = some (s, rest) := by
  induction s with
  | nil =>
    simp only [encStrBody, List.flatMap_nil, List.nil_append]
    exact decStrBody_quote rest
  | cons c s ih =>
    by_cases hc : c = '"' ∨ c = '\\'
    · have h1 : encStrBody (c :: s) ++ '"' :: rest =
          '\\' :: c :: (encStrBody s ++ '"' :: rest) := by
        simp [encStrBody, escChar, hc]
      rw [h1, decStrBody_esc, ih]
    · push_neg at hc
      have h1 : encStrBody (c :: s) ++ '"' :: rest =
          c :: (encStrBody s ++ '"' :: rest) := by
        simp [encStrBody, escChar, hc.1, hc.2]
      rw [h1, decStrBody_other c _ hc.1 hc.2, ih]

theorem decStr_enc (s : String) (rest : List Char) :
    decStr (encStr s ++ rest) = some (s, rest) := by
  have h1 : encStr s ++ rest = '"' :: (encStrBody s.data ++ '"' :: rest) := by
    simp [encStr]
  rw [h1, decStr.eq_def]
  simp [decStrBody_enc, string_mk_data]

theorem decCell_enc (p : String × String) (rest : List Char) :
    decCell (encCell p ++ rest) = some (p, rest) := by
  have h1 : encCell p ++ rest = encStr p.1 ++ (encStr p.2 ++ rest) := by
    simp [encCell]
  rw [h1]
  simp [decCell, decStr_enc]

theorem decListAux_rb {α : Type} (dec : List Char → Option (α × List Char))
    (fuel : Nat) (rest : List Char) :
    decListAux dec fuel (']' :: rest) = some ([], rest) := by
  rw [decListAux.eq_def]
  simp

theorem decListAux_comma {α : Type} (dec : List Char → Option (α × List Char))
    (fuel2 : Nat) (rest : List Char) :
    decListAux dec (fuel2 + 1) (',' :: rest) =
      match dec rest with
      | some (x, r) =>
        match decListAux dec fuel2 r with
        | some (xs, r2) => some (x :: xs, r2)
        | none => none
      | none => none := by
  rw [decListAux.eq_def]
  simp only [reduceIte]
  rfl

theorem decListAux_enc {α : Type} (dec : List Char → Option (α × List Char))
    (f : α → List Char) (henc : ∀ x r, dec (f x ++ r) = some (x, r)) :
    ∀ (xs : List α) (fuel : Nat) (rest : List Char), xs.length ≤ fuel →
      decListAux dec fuel (xs.flatMap (fun x => ',' :: f x) ++ ']' :: rest) =
        some (xs, rest) := by
  intro xs
  induction xs with
  | nil =>
    intro fuel rest _
    simp only [List.flatMap_nil, List.nil_append]
    exact decListAux_rb dec fuel rest
  | cons x xs ih =>
    intro fuel rest hfuel
    match fuel with
    | 0 => simp at hfuel
    | fuel2 + 1 =>
      have h1 : ((x :: xs).flatMap (fun x => ',' :: f x) ++ ']' :: rest) =
          ',' :: (f x ++ (xs.flatMap (fun x => ',' :: f x) ++ ']' :: rest)) := by
        simp
      have h2 : xs.length ≤ fuel2 := by
        simp only [List.length_cons] at hfuel
        omega
      rw [h1, decListAux_comma, henc]
      simp [ih fuel2 rest h2]

theorem length_le_flatMap_comma {α : Type} (f : α → List Char) (xs : List α) :
    xs.length ≤ (xs.flatMap (fun x => ',' :: f x)).length := by
  induction xs with
  | nil => simp
  | cons x xs ih =>
    simp only [List.flatMap_cons, List.length_append, List.length_cons]
    omega

theorem decListWith_enc {α : Type} (dec : List Char → Option (α × List Char))
    (f : α → List Char) (henc : ∀ x r, dec (f x ++ r) = some (x, r))
    (xs : List α) (rest : List Char) :
    decListWith dec (encListWith f xs ++ rest) = some (xs, rest) := by
  have h1 : encListWith f xs ++ rest =
      '[' :: (xs.flatMap (fun x => ',' :: f x) ++ ']' :: rest) := by
    simp [encListWith]
  have hfuel : xs.length ≤
      (xs.flatMap (fun x => ',' :: f x) ++ ']' :: rest).length := by
    have h0 := length_le_flatMap_comma f xs
    rw [List.length_append]
    omega
  rw [h1, decListWith.eq_def]
  simp only [reduceIte]
  exact decListAux_enc dec f henc xs _ rest hfuel

theorem decRow_enc (r : Row) (rest : List Char) :
    decRow (encRow r ++ rest) = some (r, rest) :=
  decListWith_enc decCell encCell decCell_enc r rest

/-- The serializer round-trips: deserializing the serialized aggregate
recovers it exactly. -/
theorem dfFromJson_dfToJson (df : DataFrame) :
    dfFromJson (dfToJson df) = some df := by
  have h1 : (dfToJson df).data = encListWith encRow df ++ [] := by
    simp [dfToJson]
  rw [dfFromJson, h1, decListWith_enc decRow encRow decRow_enc df []]

/-! ### Helper lemmas: first-success iteration -/

theorem firstSome_eq_of_first {α β : Type} (f : α → Option β) (l : List α)
    (d : α) (i : Nat) (b : β) (hi : i < l.length)
    (hnone : ∀ j, j < i → f (l.getD j d) = none)
    (hsome : f (l.getD i d) = some b) :
    firstSome f l = some b := by
  induction l generalizing i with
  | nil => simp at hi
  | cons x xs ih =>
    match i with
    | 0 =>
      simp only [List.getD_cons_zero] at hsome
      simp [firstSome, hsome]
    | i2 + 1 =>
      have hx : f x = none := by
        have := hnone 0 (by omega)
        simpa using this
      simp only [firstSome, hx]
      exact ih i2 (by simpa using hi)
        (fun j hj => by simpa using hnone (j + 1) (by omega))
        (by simpa using hsome)

/-- A logical name that resolves contributes its tagged frame to the
accumulated `dfs` list. -/
theorem mem_resolvedList (query : String → Option DataFrame)
    (names : List String) (s : String) (df : DataFrame)
    (hmem : s ∈ names) (hres : resolveName query s = some df) :
    (s, setTag s df) ∈ resolvedList query names := by
  rw [resolvedList, List.mem_filterMap]
  exact ⟨s, hmem, by rw [hres, Option.map_some']⟩

theorem setTag_length (s : String) (df : DataFrame) :
    (setTag s df).length = df.length := by
  simp [setTag]

theorem tagOf_setCell (s : String) (r : Row) :
    tagOf (setCell "Source_Sheet" s r) = some s := by
  simp [tagOf, getCell, setCell]

/-! ### Claim theorems -/

/-- C1: for every configured logical dataset name, the candidate list
the loader builds is exactly the documented variant order — the name
as given, then lowercased, then the `"_forecast"`-stripped lowercased
and original forms, deduplicated preserving order — and the candidate
loop stops at the first variant whose `safe_select` read succeeds. -/
theorem resolver_variant_order_and_first_success :
    (∀ s ∈ sheetNames, candList s = specVariants s) ∧
    (∀ (query : String → Option DataFrame) (s : String) (i : Nat)
        (df : DataFrame), i < (candList s).length →
      (∀ j, j < i → safeSelect query ((candList s).getD j "") = none) →
      safeSelect query ((candList s).getD i "") = some df →
      resolveName query s = some df) := by
  constructor
  · decide
  · intro query s i df hi hnone hsome
    exact firstSome_eq_of_first (safeSelect query) (candList s) "" i df hi hnone hsome

theorem resolver_variant_order_witness :
    candList "Tractor_Registry_forecast" = specVariants "Tractor_Registry_forecast" ∧
    resolveName w1query "Tractor_Registry_forecast" = some w1df :=
  ⟨resolver_variant_order_and_first_success.1 "Tractor_Registry_forecast" (by decide),
   resolver_variant_order_and_first_success.2 w1query "Tractor_Registry_forecast" 0 w1df
     (by decide) (fun j hj => absurd hj (Nat.not_lt_zero j)) (by decide)⟩

/-- C2: the aggregate's row count is the sum of the resolved frames'
row counts, every accumulated frame is tagged throughout with the
logical name it resolved from, and every row of the aggregate carries
such a tag. -/
theorem aggregator_counts_and_tags (query : String → Option DataFrame)
    (names : List String) :
    (buildAll query names).length =
      ((names.filterMap (fun s => resolveName query s)).map List.length).sum ∧
    (∀ p ∈ resolvedList query names, ∀ r ∈ p.2, tagOf r = some p.1) ∧
    (∀ r ∈ buildAll query names, ∃ s df, s ∈ names ∧
      resolveName query s = some df ∧ r ∈ setTag s df ∧ tagOf r = some s) := by
  refine ⟨?_, ?_, ?_⟩
  · induction names with
    | nil => simp [buildAll, resolvedList]
    | cons s names ih =>
      simp only [buildAll, resolvedList, List.filterMap_cons] at *
      cases h : resolveName query s with
      | none => simpa [h] using ih
      | some df => simp [h, setTag_length, ih]
  · intro p hp r hr
    rw [resolvedList, List.mem_filterMap] at hp
    obtain ⟨s, hs, hmap⟩ := hp
    rw [Option.map_eq_some'] at hmap
    obtain ⟨df, hdf, rfl⟩ := hmap
    rw [setTag, List.mem_map] at hr
    obtain ⟨r0, _, rfl⟩ := hr
    exact tagOf_setCell s r0
  · intro r hr
    rw [buildAll, List.mem_flatMap] at hr
    obtain ⟨p, hp, hrp⟩ := hr
    have hp2 := hp
    rw [resolvedList, List.mem_filterMap] at hp2
    obtain ⟨s, hs, hmap⟩ := hp2
    rw [Option.map_eq_some'] at hmap
    obtain ⟨df, hdf, rfl⟩ := hmap
    have htag : tagOf r = some s := by
      rw [setTag, List.mem_map] at hrp
      obtain ⟨r0, _, rfl⟩ := hrp
      exact tagOf_setCell s r0
    exact ⟨s, df, hs, hdf, hrp, htag⟩

theorem aggregator_counts_and_tags_witness :
    tagOf [("Source_Sheet", "Tractor_Registry_forecast"), ("yield", "12")] =
      some "Tractor_Registry_forecast" :=
  (aggregator_counts_and_tags w1query ["Tractor_Registry_forecast"]).2.1
    ("Tractor_Registry_forecast", setTag "Tractor_Registry_forecast" w1df)
    (by decide)
    [("Source_Sheet", "Tractor_Registry_forecast"), ("yield", "12")]
    (by decide)

/-- C10: a variant read that succeeds with zero rows still counts the
dataset as found — it is tagged and included in the accumulated list,
and no later variant is attempted (the loop's result is unchanged
under any reads the later variants might have given). -/
theorem empty_read_counts_as_found (query : String → Option DataFrame)
    (s : String) (names : List String) (i : Nat)
    (hi : i < (candList s).length)
    (hnone : ∀ j, j < i → safeSelect query ((candList s).getD j "") = none)
    (hsome : safeSelect query ((candList s).getD i "") = some ([] : DataFrame))
    (hmem : s ∈ names) :
    resolveName query s = some [] ∧
    (s, ([] : DataFrame)) ∈ resolvedList query names ∧
    ∀ query2 : String → Option DataFrame,
      (∀ j, j ≤ i → safeSelect query2 ((candList s).getD j "") =
        safeSelect query ((candList s).getD j "")) →
      resolveName query2 s = resolveName query s := by
  have h1 : resolveName query s = some [] :=
    firstSome_eq_of_first (safeSelect query) (candList s) "" i [] hi hnone hsome
  refine ⟨h1, ?_, ?_⟩
  · have := mem_resolvedList query names s [] hmem h1
    simpa [setTag] using this
  · intro query2 hagree
    have h2 : resolveName query2 s = some [] :=
      firstSome_eq_of_first (safeSelect query2) (candList s) "" i [] hi
        (fun j hj => by rw [hagree j (by omega)]; exact hnone j hj)
        (by rw [hagree i (by omega)]; exact hsome)
    rw [h1, h2]

theorem empty_read_counts_as_found_witness :
    resolveName w10query "Project_Overview_Forecast" = some [] ∧
    ("Project_Overview_Forecast", ([] : DataFrame)) ∈
      resolvedList w10query sheetNames :=
  ⟨(empty_read_counts_as_found w10query "Project_Overview_Forecast" sheetNames 0
      (by decide) (fun j hj => absurd hj (Nat.not_lt_zero j)) (by decide)
      (by decide)).1,
   (empty_read_counts_as_found w10query "Project_Overview_Forecast" sheetNames 0
      (by decide) (fun j hj => absurd hj (Nat.not_lt_zero j)) (by decide)
      (by decide)).2.1⟩

theorem storeLookup_insert (k v : String) (e : Nat) (store : CacheStore) :
    storeLookup k (storeInsert k v e store) = some (v, e) := by
  induction store with
  | nil => simp [storeInsert, storeLookup]
  | cons q rest ih =>
    obtain ⟨k2, v2, e2⟩ := q
    by_cases hk : k2 = k
    · simp [storeInsert, storeLookup, hk]
    · simp [storeInsert, storeLookup, hk, ih]

/-- C3: serializing the aggregate with the cache's `set` and reading
it back with `get` before the entry's expiry yields exactly the
serialized form, and deserializing it recovers a table equal to the
one stored. -/
theorem cache_roundtrip_before_expiry (store : CacheStore) (df : DataFrame)
    (t ttl t2 : Nat) (h : t2 < t + ttl) :
    (cache_get true (cache_set true store false t cacheKey (dfToJson df) ttl)
        false t2 cacheKey).bind dfFromJson = some df := by
  have h1 : cache_set true store false t cacheKey (dfToJson df) ttl =
      storeInsert cacheKey (dfToJson df) (t + ttl) store := by
    simp [cache_set]
  rw [h1]
  have h2 : cache_get true (storeInsert cacheKey (dfToJson df) (t + ttl) store)
      false t2 cacheKey = some (dfToJson df) := by
    simp [cache_get, redisGet, storeLookup_insert, h]
  rw [h2, Option.some_bind, dfFromJson_dfToJson]

theorem cache_roundtrip_before_expiry_witness :
    (cache_get true (cache_set true [] false 0 cacheKey (dfToJson w3df) 300)
        false 100 cacheKey).bind dfFromJson = some w3df :=
  cache_roundtrip_before_expiry [] w3df 0 300 100 (by omega)

/-- C7: a cached value that fails to deserialize is treated as a
miss — the loader falls through and rebuilds the aggregate from the
configured sources. -/
theorem deserialization_failure_rebuilds (configured gFails sFails : Bool)
    (store : CacheStore) (now : Nat) (query : String → Option DataFrame)
    (cached : String)
    (hget : cache_get configured store gFails now cacheKey = some cached)
    (hne : cached ≠ "") (hbad : dfFromJson cached = none) :
    (load_all_sheets configured store gFails sFails now true query).1 =
      buildAll query sheetNames := by
  simp [load_all_sheets, hget, hne, hbad]

theorem deserialization_failure_rebuilds_witness :
    (load_all_sheets true [(cacheKey, "x", 10)] false false 0 true
        (fun _ => none)).1 = buildAll (fun _ => none) sheetNames :=
  deserialization_failure_rebuilds true false false [(cacheKey, "x", 10)] 0
    (fun _ => none) "x" (by decide) (by decide) (by decide)

/-- C8: `cache_get` is always a miss when no backend is configured or
the backend call raises, and otherwise reports exactly the backend's
stored value; `cache_set` swallows backend errors and is a no-op
without a backend; and an unconfigured cache leaves the loader's
result the fresh build, with the store untouched. -/
theorem cache_degrades_to_miss :
    (∀ (store : CacheStore) (g : Bool) (now : Nat) (k : String),
      cache_get false store g now k = none) ∧
    (∀ (store : CacheStore) (now : Nat) (k : String),
      cache_get true store true now k = none) ∧
    (∀ (store : CacheStore) (now : Nat) (k : String),
      cache_get true store false now k = redisGet store now k) ∧
    (∀ (store : CacheStore) (now : Nat) (k v : String) (e : Nat),
      cache_set true store true now k v e = store) ∧
    (∀ (store : CacheStore) (s : Bool) (now : Nat) (k v : String) (e : Nat),
      cache_set false store s now k v e = store) ∧
    (∀ (store : CacheStore) (g s : Bool) (now : Nat)
        (query : String → Option DataFrame),
      load_all_sheets false store g s now true query =
        (buildAll query sheetNames, store)) := by
  refine ⟨?_, ?_, ?_, ?_, ?_, ?_⟩
  · intro store g now k
    simp [cache_get]
  · intro store now k
    simp [cache_get]
  · intro store now k
    simp [cache_get]
  · intro store now k v e
    simp [cache_set]
  · intro store s now k v e
    simp [cache_set]
  · intro store g s now query
    simp [load_all_sheets, cache_get, cache_set]

/-- C6: an admitted `/ask` request whose question is empty or missing
returns the prompting message and never consults the data store — the
response is identical under any loader, engine state, table listing,
chart, or GenAI outcome. -/
theorem empty_question_prompts_without_store (limit : Nat) (st : RateState)
    (now : Nat) (ip : String) (question : Option String)
    (load load2 : Unit → DataFrame) (engineP engineP2 : Bool)
    (tables tables2 : List String) (chart chart2 : Option String)
    (genai genai2 : Option (Except Unit String))
    (hrl : (check_rate_limit limit st now ip).1 = true)
    (hq : question.getD "" = "") :
    ask limit st now ip question load engineP tables chart genai =
      ask limit st now ip question load2 engineP2 tables2 chart2 genai2 ∧
    (ask limit st now ip question load engineP tables chart genai).1 =
      ⟨200, promptAnswer, none, none⟩ := by
  constructor <;> simp [ask, hrl, hq]

theorem empty_question_prompts_without_store_witness :
    ask 60 [] 0 "9.9.9.9" none (fun _ => [[("a", "1")]]) true ["t"] (some "img")
        (some (.ok "hi")) =
      ask 60 [] 0 "9.9.9.9" none (fun _ => []) false [] none none ∧
    (ask 60 [] 0 "9.9.9.9" none (fun _ => [[("a", "1")]]) true ["t"] (some "img")
        (some (.ok "hi"))).1 = ⟨200, promptAnswer, none, none⟩ :=
  empty_question_prompts_without_store 60 [] 0 "9.9.9.9" none
    (fun _ => [[("a", "1")]]) (fun _ => []) true false ["t"] [] (some "img")
    none (some (.ok "hi")) none (by decide) rfl

/-- C9: an admitted `/ask` request with a non-empty question, when the
aggregate is empty, answers "no data available" carrying the
engine-availability flag, together with the table listing. -/
theorem empty_table_reports_no_data (limit : Nat) (st : RateState)
    (now : Nat) (ip : String) (q : String) (load : Unit → DataFrame)
    (engineP : Bool) (tables : List String) (chart : Option String)
    (genai : Option (Except Unit String))
    (hrl : (check_rate_limit limit st now ip).1 = true)
    (hq : q ≠ "") (hload : load () = []) :
    (ask limit st now ip (some q) load engineP tables chart genai).1 =
      ⟨200, noDataAnswer engineP, none, some tables⟩ := by
  simp [ask, hrl, hq, hload]

theorem empty_table_reports_no_data_witness :
    (ask 60 [] 0 "9.9.9.8" (some "yields?") (fun _ => []) false ["other_table"]
        none none).1 = ⟨200, noDataAnswer false, none, some ["other_table"]⟩ :=
  empty_table_reports_no_data 60 [] 0 "9.9.9.8" "yields?" (fun _ => []) false
    ["other_table"] none none (by decide) (by decide) rfl

/-- C5: an admitted `/ask` request with a non-empty question and a
non-empty aggregate, when the GenAI key is unset or the GenAI call
raises, yields status 200 with the deterministic local summary, which
spells out the total row count and per-sheet counts. -/
theorem genai_failure_falls_back_to_summary (limit : Nat) (st : RateState)
    (now : Nat) (ip : String) (q : String) (load : Unit → DataFrame)
    (engineP : Bool) (tables : List String) (chart : Option String)
    (hrl : (check_rate_limit limit st now ip).1 = true)
    (hq : q ≠ "") (hdf : load () ≠ []) :
    ((ask limit st now ip (some q) load engineP tables chart none).1.status = 200 ∧
     (ask limit st now ip (some q) load engineP tables chart none).1.answer =
       noKeySummary (load ())) ∧
    ((ask limit st now ip (some q) load engineP tables chart
        (some (.error ()))).1.status = 200 ∧
     (ask limit st now ip (some q) load engineP tables chart
        (some (.error ()))).1.answer = genaiFailSummary (load ())) ∧
    localSummary (load ()) =
      "Data rows: " ++ toString (load ()).length ++ "; sheets: " ++
        toString (sheetCounts (load ())).length ++ "; top_sheets: " ++
        pyDictRepr (sheetCounts (load ())) := by
  refine ⟨⟨?_, ?_⟩, ⟨?_, ?_⟩, rfl⟩ <;> simp [ask, hrl, hq, hdf]

/-! ### Rate-limiter iteration lemmas -/

theorem check_rate_limit_under (limit c : Nat) (ip : String) (t : Nat)
    (key : String) (hkey : rateKey ip t = key) (hc : c < limit) :
    check_rate_limit limit [(key, c)] t ip = (true, [(key, c + 1)]) := by
  simp [check_rate_limit, hkey, rateLookup, rateInsert, Nat.not_le.mpr hc]

theorem check_rate_limit_over (limit c : Nat) (ip : String) (t : Nat)
    (key : String) (hkey : rateKey ip t = key) (hc : limit ≤ c) :
    check_rate_limit limit [(key, c)] t ip = (false, [(key, c)]) := by
  simp [check_rate_limit, hkey, rateLookup, hc]

theorem check_rate_limit_empty_pos (limit : Nat) (ip : String) (t : Nat)
    (h0 : 0 < limit) :
    check_rate_limit limit [] t ip = (true, [(rateKey ip t, 1)]) := by
  simp [check_rate_limit, rateLookup, rateInsert, Nat.not_le.mpr h0]

theorem check_rate_limit_zero (st : RateState) (ip : String) (t : Nat) :
    check_rate_limit 0 st t ip = (false, st) := by
  simp [check_rate_limit]

/-- An admitted request always gets a 200 response and leaves the
limiter in the state `check_rate_limit` produced. -/
theorem ask_admitted (limit : Nat) (st : RateState) (now : Nat) (ip : String)
    (question : Option String) (load : Unit → DataFrame) (engineP : Bool)
    (tables : List String) (chart : Option String)
    (genai : Option (Except Unit String))
    (hrl : (check_rate_limit limit st now ip).1 = true) :
    (ask limit st now ip question load engineP tables chart genai).1.status = 200 ∧
    (ask limit st now ip question load engineP tables chart genai).2 =
      (check_rate_limit limit st now ip).2 := by
  constructor <;>
    (simp only [ask, hrl]
     simp only [Bool.true_eq_false, if_false]
     split
     · rfl
     · split <;> rfl)

/-- A rejected request gets exactly the 429 payload and leaves the
limiter state as `check_rate_limit` returned it. -/
theorem ask_limited (limit : Nat) (st : RateState) (now : Nat) (ip : String)
    (question : Option String) (load : Unit → DataFrame) (engineP : Bool)
    (tables : List String) (chart : Option String)
    (genai : Option (Except Unit String))
    (hrl : (check_rate_limit limit st now ip).1 = false) :
    ask limit st now ip question load engineP tables chart genai =
      (⟨429, rateLimitedAnswer, none, none⟩,
        (check_rate_limit limit st now ip).2) := by
  simp [ask, hrl]

theorem ask_429_answer (limit : Nat) (st : RateState) (now : Nat) (ip : String)
    (question : Option String) (load : Unit → DataFrame) (engineP : Bool)
    (tables : List String) (chart : Option String)
    (genai : Option (Except Unit String))
    (h : (ask limit st now ip question load engineP tables chart genai).1.status
        = 429) :
    (ask limit st now ip question load engineP tables chart genai).1.answer =
      rateLimitedAnswer := by
  by_cases hrl : (check_rate_limit limit st now ip).1 = false
  · rw [ask_limited limit st now ip question load engineP tables chart genai hrl]
  · have hrl2 : (check_rate_limit limit st now ip).1 = true := by
      revert hrl
      cases (check_rate_limit limit st now ip).1 <;> simp
    have := (ask_admitted limit st now ip question load engineP tables chart
      genai hrl2).1
    rw [this] at h
    exact absurd h (by decide)

theorem askSeq_429_answers (limit : Nat) (ip : String) (question : Option String)
    (load : Unit → DataFrame) (engineP : Bool) (tables : List String)
    (chart : Option String) (genai : Option (Except Unit String)) :
    ∀ (ts : List Nat) (st : RateState),
      ∀ resp ∈ (askSeq limit ip question load engineP tables chart genai ts st).1,
        resp.status = 429 → resp.answer = rateLimitedAnswer := by
  intro ts
  induction ts with
  | nil =>
    intro st resp h
    simp [askSeq] at h
  | cons t ts ih =>
    intro st resp hmem hstat
    simp only [askSeq, List.mem_cons] at hmem
    rcases hmem with h | h
    · subst h
      exact ask_429_answer limit st t ip question load engineP tables chart
        genai hstat
    · exact ih _ resp h hstat

/-- Iterating same-window requests from a single-key state counts up
to the limit and then rejects. -/
theorem askSeq_statuses (limit : Nat) (ip : String) (w : Nat)
    (question : Option String) (load : Unit → DataFrame) (engineP : Bool)
    (tables : List String) (chart : Option String)
    (genai : Option (Except Unit String)) :
    ∀ (ts : List Nat) (c : Nat), (∀ t ∈ ts, t / 60 = w) →
      ((askSeq limit ip question load engineP tables chart genai ts
          [(ip ++ ":" ++ toString w, c)]).1.map (fun r => r.status)) =
        List.replicate (min ts.length (limit - c)) 200 ++
          List.replicate (ts.length - (limit - c)) 429 := by
  intro ts
  induction ts with
  | nil =>
    intro c hw
    simp [askSeq]
  | cons t ts ih =>
    intro c hw
    have hkey : rateKey ip t = ip ++ ":" ++ toString w := by
      rw [rateKey, hw t (by simp)]
    by_cases hc : c < limit
    · have hcheck := check_rate_limit_under limit c ip t
        (ip ++ ":" ++ toString w) hkey hc
      have hadm := ask_admitted limit [(ip ++ ":" ++ toString w, c)] t ip
        question load engineP tables chart genai (by rw [hcheck])
      simp only [askSeq, List.map_cons]
      rw [hadm.1, hadm.2, hcheck]
      have htail := ih (c + 1) (fun u hu => hw u (by simp [hu]))
      rw [htail]
      have hm : limit - c = (limit - (c + 1)) + 1 := by omega
      rw [hm]
      simp only [List.length_cons, Nat.succ_min_succ, Nat.succ_sub_succ,
        List.replicate_succ, List.cons_append]
    · have hc2 : limit ≤ c := by omega
      have hcheck := check_rate_limit_over limit c ip t
        (ip ++ ":" ++ toString w) hkey hc2
      have hlim := ask_limited limit [(ip ++ ":" ++ toString w, c)] t ip
        question load engineP tables chart genai (by rw [hcheck])
      simp only [askSeq, List.map_cons]
      rw [hlim]
      simp only [hcheck]
      have htail := ih c (fun u hu => hw u (by simp [hu]))
      have hm : limit - c = 0 := by omega
      rw [hm] at htail ⊢
      simp only [List.length_cons, Nat.min_zero, Nat.sub_zero,
        List.replicate_zero, List.nil_append, List.replicate_succ] at htail ⊢
      simp only [htail]

/-- C4: with rate limit `N`, the same client address issuing `N + 1`
requests to `/ask` within one minute window sees the first `N`
admitted (status 200) and the last rejected with status 429 and the
rate-limit message. -/
theorem rate_limit_blocks_excess (N : Nat) (ip : String) (w : Nat)
    (times : List Nat) (question : Option String) (load : Unit → DataFrame)
    (engineP : Bool) (tables : List String) (chart : Option String)
    (genai : Option (Except Unit String))
    (hlen : times.length = N + 1) (hw : ∀ t ∈ times, t / 60 = w) :
    ((askSeq N ip question load engineP tables chart genai times []).1.map
        (fun r => r.status)) = List.replicate N 200 ++ [429] ∧
    ∀ resp ∈ (askSeq N ip question load engineP tables chart genai times []).1,
      resp.status = 429 → resp.answer = rateLimitedAnswer := by
  refine ⟨?_, askSeq_429_answers N ip question load engineP tables chart genai
    times []⟩
  match times, hlen with
  | t :: ts, hlen =>
    have hts : ts.length = N := by simpa using hlen
    by_cases hN : 0 < N
    · have hcheck := check_rate_limit_empty_pos N ip t hN
      have hadm := ask_admitted N [] t ip question load engineP tables chart
        genai (by rw [hcheck])
      have hkey : rateKey ip t = ip ++ ":" ++ toString w := by
        rw [rateKey, hw t (by simp)]
      simp only [askSeq, List.map_cons]
      rw [hadm.1, hadm.2, hcheck, hkey]
      have htail := askSeq_statuses N ip w question load engineP tables chart
        genai ts 1 (fun u hu => hw u (by simp [hu]))
      rw [htail, hts]
      have h1 : min N (N - 1) = N - 1 := by omega
      have h2 : N - (N - 1) = 1 := by omega
      rw [h1, h2]
      have h3 : N = (N - 1) + 1 := by omega
      rw [h3]
      simp [List.replicate_succ]
    · have hN0 : N = 0 := by omega
      subst hN0
      have hts0 : ts = [] := List.length_eq_zero.mp hts
      subst hts0
      have hcheck := check_rate_limit_zero [] ip t
      have hlim := ask_limited 0 [] t ip question load engineP tables chart
        genai (by rw [hcheck])
      simp only [askSeq, List.map_cons]
      rw [hlim]
      simp [askSeq]

theorem rate_limit_blocks_excess_witness :
    ((askSeq 2 "3.3.3.3" (some "q") (fun _ => [[("a", "1")]]) true []
        none (some (.ok "hi")) [0, 30, 59] []).1.map (fun r => r.status)) =
      List.replicate 2 200 ++ [429] :=
  (rate_limit_blocks_excess 2 "3.3.3.3" 0 [0, 30, 59] (some "q")
    (fun _ => [[("a", "1")]]) true [] none (some (.ok "hi"))
    (by decide) (by decide)).1

theorem genai_failure_falls_back_to_summary_witness :
    (ask 60 [] 0 "9.9.9.7" (some "pests?")
        (fun _ => [[("Source_Sheet", "E_Voucher_Forecast"), ("kpi", "7")]])
        true [] none (some (.error ()))).1.answer =
      genaiFailSummary [[("Source_Sheet", "E_Voucher_Forecast"), ("kpi", "7")]] :=
  (genai_failure_falls_back_to_summary 60 [] 0 "9.9.9.7" "pests?"
    (fun _ => [[("Source_Sheet", "E_Voucher_Forecast"), ("kpi", "7")]]) true []
    none (by decide) (by decide) (by decide)).2.1.2

end AgroVista
